import Mathlib

/-!
# Broker controller (`src/web_server/controller.go`)

A shallow embedding of the five stateful handlers of `Controller`
(`CreateServiceInstance`, `GetServiceInstance`, `RemoveServiceInstance`,
`Bind`, `UnBind`) and the properties of them that the specification states.

Modelling decisions, each traceable to the Go source:

* A Go `map[string]*T` is a function from keys to `Option (Option T)`: the
  outer option is the presence of the key, the inner one the pointer
  (`none` is the nil pointer).  `m[k]` yields nil both for an absent key
  and for a stored nil pointer, which is `GoMap.index`.
* Records reached through a pointer are kept by value in the map, and a
  write through the pointer (`instance.LastOperation.State = ...`) is a
  write back under the key the pointer was read from.  Two keys sharing one
  record are not represented; every record the handlers store is freshly
  allocated.
* A nil-pointer dereference is the fault `Panic.nilDereference`; the two
  handlers that contain one return `Except Panic Outcome`.  Both
  dereferences happen before the handler writes to a map or to the
  response.
* `http.ResponseWriter` keeps the first status code written; a later
  `WriteHeader` has no effect, and a body write before any `WriteHeader`
  implies status 200.
* The body is the sequence of values written with `fmt.Fprintf`.  The
  constant format `{}` holds no verb and is written as it stands.  The
  response of `CreateServiceInstance` and `GetServiceInstance` holds only
  constants of the handler and an integer, and is kept as the record
  marshalled; the broker error, whose encoding is in the absent package
  `errors`, is kept as the error it is built from.
* The response of `Bind` carries the private key the cloud client returned,
  and `Bind` passes its JSON text to `fmt.Fprintf` as the format.  The
  encoder, which depends on the field tags of the absent package `module`,
  is a parameter `marshal` of `Bind`; the reading of the format with no
  operand is `fmt.Sprintf`, after `doPrintf` of Go's `fmt/print.go`.
* Both maps of the controller are allocated: a write to a nil Go map is not
  represented.
* Console output (`fmt.Println`) and `utils.MarshalAndRecord`, whose error
  is only printed, touch neither the maps nor the response and are left
  out.
* The cloud client is a parameter: a record of the answers of its five
  calls.  Every handler makes at most one call, which is logged in
  `Outcome.calls`.
-/

namespace web_server

/-! ## Data model -/

/-- Constant `DEFAULT_POLLING_INTERVAL_SECONDS` of `controller.go`. -/
def DEFAULT_POLLING_INTERVAL_SECONDS : Int := 10

/-- Status codes of `net/http` used by the handlers. -/
def StatusOK : Nat := 200
/-- Code of `http.StatusCreated`. -/
def StatusCreated : Nat := 201
/-- Code of `http.StatusNotFound`. -/
def StatusNotFound : Nat := 404
/-- Code of `http.StatusGone`. -/
def StatusGone : Nat := 410
/-- Code of `http.StatusInternalServerError`. -/
def StatusInternalServerError : Nat := 500

/-- Modelled from the spec: `module.LastOperation` (package `module` is not
among the sources): state, human-readable description and recommended poll
interval, the three fields `controller.go` assigns. -/
structure LastOperation where
  State : String
  Description : String
  AsyncPollIntervalSeconds : Int
  deriving DecidableEq, Repr

/-- Modelled from the spec: `module.ServiceInstance` (package `module` is not
among the sources): identifier, internal identifier, service id, plan id and
last-operation record.  `controller.go` assigns `&lastOperation` to the last
field, so it is a pointer and may be nil. -/
structure ServiceInstance where
  Id : String
  InternalId : String
  ServiceId : String
  PlanId : String
  LastOperation : Option LastOperation
  deriving DecidableEq, Repr

/-- Modelled from the spec: `module.ServiceKey` (package `module` is not among
the sources): identifier, service id, plan id, private key material and the
identifier of the owning service instance, the five fields `Bind` fills. -/
structure ServiceKey where
  Id : String
  ServiceId : String
  ServicePlanId : String
  PrivateKey : String
  ServiceInstanceId : String
  deriving DecidableEq, Repr

/-- Modelled from the spec: `module.Credential` (package `module` is not among
the sources); `Bind` fills its private key only. -/
structure Credential where
  PrivateKey : String
  deriving DecidableEq, Repr

/-- Modelled from the spec: `module.CreateServiceInstanceResponse` (package
`module` is not among the sources): dashboard URL and last operation. -/
structure CreateServiceInstanceResponse where
  DashboardUrl : String
  LastOperation : Option LastOperation
  deriving DecidableEq, Repr

/-- Modelled from the spec: `module.CreateServiceBindingResponse` (package
`module` is not among the sources): the credentials. -/
structure CreateServiceBindingResponse where
  Credentials : Credential
  deriving DecidableEq, Repr

/-! ## Go maps of pointers -/

/-- Go `map[string]*V`: `none` for an absent key, `some none` for a key
holding the nil pointer, `some (some v)` for a key holding a record. -/
abbrev GoMap (V : Type) := String → Option (Option V)

namespace GoMap

/-- The map with no key. -/
def empty {V : Type} : GoMap V := fun _ => none

/-- Go `m[k]`: the stored pointer, nil when the key is absent. -/
def index {V : Type} (m : GoMap V) (k : String) : Option V := (m k).join

/-- Go `m[k] = p`. -/
def store {V : Type} (m : GoMap V) (k : String) (p : Option V) : GoMap V :=
  fun j => if j = k then some p else m j

/-- Go `delete(m, k)`. -/
def delete {V : Type} (m : GoMap V) (k : String) : GoMap V :=
  fun j => if j = k then none else m j

end GoMap

/-- Struct `Controller` of `controller.go`. -/
structure Controller where
  InstanceMap : GoMap ServiceInstance
  KeyMap : GoMap ServiceKey

/-- The controller with both maps empty. -/
def Controller.empty : Controller := ⟨GoMap.empty, GoMap.empty⟩

/-! ## Cloud client -/

/-- Modelled from the spec: the cloud client `ac.NewClient("us-east-1")`
(package `aws_client` is not among the sources), as the answers of its five
calls.  A Go `(value, error)` pair is an `Except`, a lone `error` result is an
`Option` with `none` for the nil error. -/
structure Client where
  CreateInstance : Except String String
  GetInstanceState : String → Except String String
  DeleteInstance : String → Option String
  InjectKeyPair : String → Except String String
  RevokeKeyPair : String → String → Option String

/-- A call made on the cloud client, with its arguments. -/
inductive CloudCall where
  | CreateInstance
  | GetInstanceState (instanceId : String)
  | DeleteInstance (instanceId : String)
  | InjectKeyPair (instanceId : String)
  | RevokeKeyPair (instanceId : String) (privateKey : String)
  deriving DecidableEq, Repr

/-! ## Response writer -/

/-- One value written to the response body with `fmt.Fprintf`: `text` is
the characters written. -/
inductive BodyPart where
  | text (s : String)
  | instanceResponse (r : CreateServiceInstanceResponse)
  | brokerError (err : String)
  deriving DecidableEq, Repr

/-- The observable part of `http.ResponseWriter`: the status code once the
header is written, and the body parts in the order written. -/
structure ResponseWriter where
  status : Option Nat
  body : List BodyPart
  deriving DecidableEq, Repr

namespace ResponseWriter

/-- The writer a handler receives: nothing written yet. -/
def fresh : ResponseWriter := ⟨none, []⟩

/-- Method `w.WriteHeader(code)`: only the first call sets the status. -/
def WriteHeader (w : ResponseWriter) (code : Nat) : ResponseWriter :=
  match w.status with
  | none => { w with status := some code }
  | some _ => w

/-- Call `fmt.Fprintf(w, part)`: writes the header with 200 if none was
written, then appends to the body. -/
def Fprintf (w : ResponseWriter) (part : BodyPart) : ResponseWriter :=
  let w := w.WriteHeader StatusOK
  { w with body := w.body ++ [part] }

end ResponseWriter

/-! ## Formatting with no operand

The part of Go's `fmt` that `fmt.Fprintf(w, format)` runs when it is given a
format and no operand. -/

namespace fmt

/-- Go `tooLarge`: the bound on a width, precision or argument index. -/
def tooLarge (x : Nat) : Bool := decide (x > 1000000)

/-- Loop of Go `parsenum`, from the number read so far. -/
def parsenumFrom : Nat → Bool → List Char → Nat × Bool × List Char
  | num, isnum, [] => (num, isnum, [])
  | num, isnum, c :: cs =>
    if '0' ≤ c ∧ c ≤ '9' then
      if tooLarge num then (0, false, [])
      else parsenumFrom (num * 10 + (c.toNat - '0'.toNat)) true cs
    else (num, isnum, c :: cs)

/-- Go `parsenum` on the characters from `start` to `end`: the number read,
whether one was read, and the characters left.  On overflow nothing is left,
the Go function returning `end`. -/
def parsenum (s : List Char) : Nat × Bool × List Char := parsenumFrom 0 false s

/-- The search of `parseArgNumber` for the first `]`: the characters before
it and those after it. -/
def closingBracket : List Char → Option (List Char × List Char)
  | [] => none
  | c :: cs =>
    if c = ']' then some ([], cs)
    else
      match closingBracket cs with
      | some (inside, after) => some (c :: inside, after)
      | none => none

/-- Go `len` of a string: its length in bytes. -/
def byteLen (s : List Char) : Nat := (s.map Char.utf8Size).sum

/-- Go `parseArgNumber` on the characters that follow the `[`: the characters
left after the index, and whether an index was read. -/
def parseArgNumber (cs : List Char) : List Char × Bool :=
  if 1 + byteLen cs < 3 then (cs, false)
  else
    match closingBracket cs with
    | some (inside, after) =>
      match parsenum inside with
      | (_, ok, rest) => if !ok || !rest.isEmpty then (after, false) else (after, true)
    | none => (cs, false)

/-- The state of `doPrintf` while it reads one verb: the text written, the
format left, and the flags `afterIndex` and `goodArgNum`. -/
structure Scan where
  out : String
  rest : List Char
  afterIndex : Bool
  goodArgNum : Bool

/-- The flag loop of `doPrintf`; with no operand its fast path is never
taken. -/
def skipFlags : List Char → List Char
  | c :: cs =>
    if c = '#' ∨ c = '0' ∨ c = '+' ∨ c = '-' ∨ c = ' ' then skipFlags cs else c :: cs
  | [] => []

/-- Go `argNumber` with no operand: an index, well formed or not, is out of
range, so `goodArgNum` is cleared whenever a `[` is read. -/
def argNumber (p : Scan) : Scan :=
  match p.rest with
  | '[' :: cs =>
    match parseArgNumber cs with
    | (rest, ok) => { p with rest := rest, afterIndex := ok, goodArgNum := false }
  | _ => { p with afterIndex := false }

/-- The width of a verb: `*` finds no operand and writes `%!(BADWIDTH)`. -/
def width (p : Scan) : Scan :=
  match p.rest with
  | '*' :: t => { p with out := p.out ++ "%!(BADWIDTH)", rest := t, afterIndex := false }
  | _ =>
    match parsenum p.rest with
    | (_, widPresent, t) =>
      { p with rest := t, goodArgNum := p.goodArgNum && !(p.afterIndex && widPresent) }

/-- The precision after the `.` and its argument index: `*` finds no
operand and writes `%!(BADPREC)`. -/
def precisionValue (p : Scan) : Scan :=
  match p.rest with
  | '*' :: u => { p with out := p.out ++ "%!(BADPREC)", rest := u, afterIndex := false }
  | _ =>
    match parsenum p.rest with
    | (_, _, u) => { p with rest := u }

/-- The precision of a verb. -/
def precision (p : Scan) : Scan :=
  match p.rest with
  | '.' :: t =>
    precisionValue (argNumber { p with rest := t, goodArgNum := p.goodArgNum && !p.afterIndex })
  | _ => p

/-- The argument index in front of the verb, read when none was just read. -/
def lastIndex (p : Scan) : Scan :=
  if p.afterIndex then p else argNumber p

/-- The text written for the verb `c`: `%` for `%%`, otherwise the report of
a bad index or of the missing operand. -/
def verb (p : Scan) (c : Char) : String :=
  if c = '%' then p.out ++ "%"
  else if !p.goodArgNum then p.out ++ "%!" ++ c.toString ++ "(BADINDEX)"
  else p.out ++ "%!" ++ c.toString ++ "(MISSING)"

/-- Go `doPrintf` with no operand.  Each round consumes a character, so the
length of the format is fuel enough (`doPrintf_fuel`). -/
def doPrintf : Nat → List Char → String
  | 0, _ => ""
  | _, [] => ""
  | fuel + 1, c :: cs =>
    if c = '%' then
      let p := lastIndex (precision (width (argNumber ⟨"", skipFlags cs, false, true⟩)))
      match p.rest with
      | [] => p.out ++ "%!(NOVERB)"
      | v :: t => verb p v ++ doPrintf fuel t
    else c.toString ++ doPrintf fuel cs

/-- Go `fmt.Sprintf(format)`: what `fmt.Fprintf(w, format)` writes. -/
def Sprintf (format : String) : String := doPrintf format.length format.toList

end fmt

/-- A nil-pointer dereference, the only run-time fault of the handlers. -/
inductive Panic where
  | nilDereference
  deriving DecidableEq, Repr

/-- What a handler leaves behind when it returns: the controller, the
response, and the cloud calls it made. -/
structure Outcome where
  controller : Controller
  w : ResponseWriter
  calls : List CloudCall

/-! ## Handlers -/

/-- Handler `Controller.CreateServiceInstance`.  `unmarshal` is the result of
`json.Unmarshal(body, &instance)` on the request body.  The Go local
`instance` is `inst` here and in the other handlers, the Go name being a
reserved word. -/
def CreateServiceInstance (awsClient : Client) (c : Controller)
    (serviceInstanceGuid : String) (unmarshal : Except String ServiceInstance) : Outcome :=
  let w := ResponseWriter.fresh
  match unmarshal with
  | .error _ => ⟨c, w.WriteHeader StatusInternalServerError, []⟩
  | .ok inst =>
    match awsClient.CreateInstance with
    | .error _ => ⟨c, w.WriteHeader StatusInternalServerError, [.CreateInstance]⟩
    | .ok vmId =>
      let inst := { inst with InternalId := vmId }
      let inst := { inst with Id := serviceInstanceGuid }
      let lastOperation : LastOperation :=
        { State := "in progress"
          Description := "creating service instance..."
          AsyncPollIntervalSeconds := DEFAULT_POLLING_INTERVAL_SECONDS }
      let inst := { inst with LastOperation := some lastOperation }
      let c := { c with InstanceMap := c.InstanceMap.store inst.Id (some inst) }
      let w := w.WriteHeader StatusOK
      let response : CreateServiceInstanceResponse :=
        { DashboardUrl := "http://dashbaord_url"
          LastOperation := some lastOperation }
      ⟨c, w.Fprintf (.instanceResponse response), [.CreateInstance]⟩

/-- Handler `Controller.GetServiceInstance`. -/
def GetServiceInstance (awsClient : Client) (c : Controller)
    (serviceInstanceGuid : String) : Except Panic Outcome :=
  let w := ResponseWriter.fresh
  match c.InstanceMap.index serviceInstanceGuid with
  | none => .ok ⟨c, w.WriteHeader StatusNotFound, []⟩
  | some inst =>
    let calls := [CloudCall.GetInstanceState inst.InternalId]
    match awsClient.GetInstanceState inst.InternalId with
    | .error _ => .ok ⟨c, w.WriteHeader StatusInternalServerError, calls⟩
    | .ok state =>
      match inst.LastOperation with
      | none => .error .nilDereference
      | some lastOperation =>
        let lastOperation :=
          if state = "pending" then
            { lastOperation with
              State := "in progress"
              Description := "creating service instance..." }
          else if state = "running" then
            { lastOperation with
              State := "succeeded"
              Description := "successfully created service instance" }
          else
            { lastOperation with
              State := "failed"
              Description := "failed to create service instance" }
        let inst := { inst with LastOperation := some lastOperation }
        let c := { c with InstanceMap := c.InstanceMap.store serviceInstanceGuid (some inst) }
        let w := w.WriteHeader StatusOK
        let response : CreateServiceInstanceResponse :=
          { DashboardUrl := "http://dashbaord_url"
            LastOperation := inst.LastOperation }
        .ok ⟨c, w.Fprintf (.instanceResponse response), calls⟩

/-- Handler `Controller.RemoveServiceInstance`.  The branch taken when the
cloud call fails has no `return`: it writes the 500 response and control
continues with the deletion. -/
def RemoveServiceInstance (awsClient : Client) (c : Controller)
    (serviceInstanceGuid : String) : Outcome :=
  let w := ResponseWriter.fresh
  match c.InstanceMap.index serviceInstanceGuid with
  | none => ⟨c, (w.WriteHeader StatusGone).Fprintf (.text "{}"), []⟩
  | some inst =>
    let w :=
      match awsClient.DeleteInstance inst.InternalId with
      | some err => (w.WriteHeader StatusInternalServerError).Fprintf (.brokerError err)
      | none => w
    let c := { c with InstanceMap := c.InstanceMap.delete serviceInstanceGuid }
    let w := w.WriteHeader StatusOK
    ⟨c, w.Fprintf (.text "{}"), [.DeleteInstance inst.InternalId]⟩

/-- Handler `Controller.Bind`.  `marshal` is `json.Marshal` on
`module.CreateServiceBindingResponse`; its result `data` is the format of
the final `fmt.Fprintf(w, string(data))`. -/
def Bind (marshal : CreateServiceBindingResponse → String) (awsClient : Client)
    (c : Controller) (serviceInstanceGuid keyId : String) : Outcome :=
  let w := ResponseWriter.fresh
  match c.InstanceMap.index serviceInstanceGuid with
  | none => ⟨c, w.WriteHeader StatusNotFound, []⟩
  | some inst =>
    let calls := [CloudCall.InjectKeyPair inst.InternalId]
    match awsClient.InjectKeyPair inst.InternalId with
    | .error _ => ⟨c, w.WriteHeader StatusInternalServerError, calls⟩
    | .ok privateKey =>
      let credential : Credential := { PrivateKey := privateKey }
      let response : CreateServiceBindingResponse := { Credentials := credential }
      let key : ServiceKey :=
        { Id := keyId
          ServiceId := inst.ServiceId
          ServicePlanId := inst.PlanId
          PrivateKey := privateKey
          ServiceInstanceId := inst.Id }
      let c := { c with KeyMap := c.KeyMap.store keyId (some key) }
      let w := w.WriteHeader StatusCreated
      let data := marshal response
      ⟨c, w.Fprintf (.text (fmt.Sprintf data)), calls⟩

/-- Handler `Controller.UnBind`.  The argument `c.KeyMap[keyId].PrivateKey` of
the cloud call is evaluated before the call and dereferences the looked-up
pointer. -/
def UnBind (awsClient : Client) (c : Controller)
    (serviceInstanceGuid keyId : String) : Except Panic Outcome :=
  let w := ResponseWriter.fresh
  match c.InstanceMap.index serviceInstanceGuid with
  | none => .ok ⟨c, (w.WriteHeader StatusGone).Fprintf (.text "{}"), []⟩
  | some inst =>
    match c.KeyMap.index keyId with
    | none => .error .nilDereference
    | some key =>
      let calls := [CloudCall.RevokeKeyPair inst.InternalId key.PrivateKey]
      match awsClient.RevokeKeyPair inst.InternalId key.PrivateKey with
      | some err =>
        .ok ⟨c, (w.WriteHeader StatusInternalServerError).Fprintf (.brokerError err), calls⟩
      | none =>
        let c := { c with KeyMap := c.KeyMap.delete keyId }
        let w := w.WriteHeader StatusOK
        .ok ⟨c, w.Fprintf (.text "{}"), calls⟩

/-! ## Concrete inputs -/

/-- A cloud client whose every call succeeds; the provider reports `running`. -/
def workingClient : Client :=
  { CreateInstance := .ok "i-1"
    GetInstanceState := fun _ => .ok "running"
    DeleteInstance := fun _ => none
    InjectKeyPair := fun _ => .ok "KEY"
    RevokeKeyPair := fun _ _ => none }

/-- A cloud client whose every call fails. -/
def failingClient : Client :=
  { CreateInstance := .error "down"
    GetInstanceState := fun _ => .error "down"
    DeleteInstance := fun _ => some "down"
    InjectKeyPair := fun _ => .error "down"
    RevokeKeyPair := fun _ _ => some "down" }

/-- An instance record as `CreateServiceInstance` stores it under `"g"`. -/
def sampleInstance : ServiceInstance :=
  { Id := "g"
    InternalId := "i-1"
    ServiceId := "svc"
    PlanId := "plan"
    LastOperation := some ⟨"in progress", "creating service instance...", 10⟩ }

/-- A key record as `Bind` stores it under `"b"` for the instance `"g"`. -/
def sampleKey : ServiceKey :=
  { Id := "b"
    ServiceId := "svc"
    ServicePlanId := "plan"
    PrivateKey := "KEY"
    ServiceInstanceId := "g" }

/-- A controller holding the instance `"g"` and the key `"b"`. -/
def sampleController : Controller :=
  { InstanceMap := GoMap.empty.store "g" (some sampleInstance)
    KeyMap := GoMap.empty.store "b" (some sampleKey) }

/-- A request body as unmarshalled: only the service and plan ids are set. -/
def sampleSpec : ServiceInstance :=
  { Id := ""
    InternalId := ""
    ServiceId := "svc"
    PlanId := "plan"
    LastOperation := none }

/-- A cloud client as `workingClient` whose injected private key is `100%d`. -/
def percentClient : Client :=
  { workingClient with InjectKeyPair := fun _ => .ok "100%d" }

/-- An encoder for `marshal`: the credentials with the private key under
`private_key`, right for keys that need no JSON escape. -/
def sampleMarshal (r : CreateServiceBindingResponse) : String :=
  "\x7b\"credentials\":\x7b\"private_key\":\"" ++ r.Credentials.PrivateKey ++ "\"\x7d\x7d"

/-! ## Well-formed and reachable controllers -/

/-- Well-formedness of the two maps: every key of the instance map holds a
non-nil record whose identifier is that key and whose `LastOperation` is
non-nil, and every key of the key map holds a non-nil record whose
identifier is that key. -/
def WellFormed (c : Controller) : Prop :=
  (∀ g p, c.InstanceMap g = some p →
    ∃ inst, p = some inst ∧ inst.Id = g ∧ inst.LastOperation ≠ none) ∧
  (∀ b p, c.KeyMap b = some p → ∃ key, p = some key ∧ key.Id = b)

/-- The controllers reached from empty maps by handler calls that return,
with any cloud client, any request and any JSON encoder at each call. -/
inductive Reachable : Controller → Prop where
  | start : Reachable Controller.empty
  | create (awsClient : Client) (c : Controller) (guid : String)
      (unmarshal : Except String ServiceInstance) :
      Reachable c → Reachable (CreateServiceInstance awsClient c guid unmarshal).controller
  | get (awsClient : Client) (c : Controller) (guid : String) (o : Outcome) :
      Reachable c → GetServiceInstance awsClient c guid = .ok o → Reachable o.controller
  | remove (awsClient : Client) (c : Controller) (guid : String) :
      Reachable c → Reachable (RemoveServiceInstance awsClient c guid).controller
  | bind (marshal : CreateServiceBindingResponse → String) (awsClient : Client)
      (c : Controller) (guid keyId : String) :
      Reachable c → Reachable (Bind marshal awsClient c guid keyId).controller
  | unbind (awsClient : Client) (c : Controller) (guid keyId : String) (o : Outcome) :
      Reachable c → UnBind awsClient c guid keyId = .ok o → Reachable o.controller

/-! ## Lemmas on maps -/

theorem GoMap.index_store_self {V : Type} (m : GoMap V) (k : String) (p : Option V) :
    (m.store k p).index k = p := by
  simp [GoMap.index, GoMap.store]

theorem GoMap.index_store_of_ne {V : Type} (m : GoMap V) {k j : String} (p : Option V)
    (h : j ≠ k) : (m.store k p).index j = m.index j := by
  simp [GoMap.index, GoMap.store, h]

theorem GoMap.index_delete_self {V : Type} (m : GoMap V) (k : String) :
    (m.delete k).index k = none := by
  simp [GoMap.index, GoMap.delete]

theorem GoMap.index_delete_of_ne {V : Type} (m : GoMap V) {k j : String}
    (h : j ≠ k) : (m.delete k).index j = m.index j := by
  simp [GoMap.index, GoMap.delete, h]

theorem GoMap.eq_some_some_of_index {V : Type} {m : GoMap V} {k : String} {v : V}
    (h : m.index k = some v) : m k = some (some v) := by
  unfold GoMap.index at h
  cases hm : m k with
  | none => simp [hm] at h
  | some p =>
    cases p with
    | none => simp [hm] at h
    | some u =>
      simp [hm] at h
      simp [h]

theorem sampleController_instance :
    sampleController.InstanceMap.index "g" = some sampleInstance := by
  simp [sampleController, GoMap.index_store_self]

theorem sampleController_key :
    sampleController.KeyMap.index "b" = some sampleKey := by
  simp [sampleController, GoMap.index_store_self]

/-! ## Lemmas on formatting -/

namespace fmt

theorem parsenumFrom_length (s : List Char) (num : Nat) (isnum : Bool) :
    (parsenumFrom num isnum s).2.2.length ≤ s.length := by
  induction s generalizing num isnum with
  | nil => simp [parsenumFrom]
  | cons c cs ih =>
    unfold parsenumFrom
    split_ifs
    · simp
    · exact Nat.le_succ_of_le (ih _ _)
    · simp

theorem closingBracket_length {cs inside after : List Char}
    (h : closingBracket cs = some (inside, after)) : after.length ≤ cs.length := by
  induction cs generalizing inside after with
  | nil => simp [closingBracket] at h
  | cons c cs ih =>
    unfold closingBracket at h
    split_ifs at h
    · simp at h
      simp [h.2]
    · cases hc : closingBracket cs with
      | none => simp [hc] at h
      | some q =>
        obtain ⟨i, a⟩ := q
        simp [hc] at h
        have := ih hc
        simp [← h.2]
        omega

theorem parseArgNumber_length (cs : List Char) :
    (parseArgNumber cs).1.length ≤ cs.length := by
  unfold parseArgNumber
  split_ifs
  · simp
  · cases hc : closingBracket cs with
    | none => simp
    | some q =>
      obtain ⟨i, a⟩ := q
      have := closingBracket_length hc
      simp only
      split_ifs <;> simpa using this

theorem skipFlags_length (s : List Char) : (skipFlags s).length ≤ s.length := by
  induction s with
  | nil => simp [skipFlags]
  | cons c cs ih =>
    unfold skipFlags
    split_ifs
    · exact Nat.le_succ_of_le ih
    · simp

theorem argNumber_length (p : Scan) : (argNumber p).rest.length ≤ p.rest.length := by
  unfold argNumber
  split
  · next cs h =>
    have := parseArgNumber_length cs
    simp [h]
    omega
  · simp

theorem width_length (p : Scan) : (width p).rest.length ≤ p.rest.length := by
  unfold width
  split
  · next t h => simp [h]
  · exact parsenumFrom_length _ _ _

theorem precisionValue_length (p : Scan) :
    (precisionValue p).rest.length ≤ p.rest.length := by
  unfold precisionValue
  split
  · next u h => simp [h]
  · exact parsenumFrom_length _ _ _

theorem precision_length (p : Scan) : (precision p).rest.length ≤ p.rest.length := by
  unfold precision
  split
  · next t h =>
    have h1 := argNumber_length { p with rest := t, goodArgNum := p.goodArgNum && !p.afterIndex }
    have h2 := precisionValue_length
      (argNumber { p with rest := t, goodArgNum := p.goodArgNum && !p.afterIndex })
    simp only at h1
    simp only [h, List.length_cons]
    omega
  · simp

theorem lastIndex_length (p : Scan) : (lastIndex p).rest.length ≤ p.rest.length := by
  unfold lastIndex
  split_ifs
  · simp
  · exact argNumber_length p

theorem scan_length (cs : List Char) :
    (lastIndex (precision (width (argNumber ⟨"", skipFlags cs, false, true⟩)))).rest.length
      ≤ cs.length :=
  calc _ ≤ _ := lastIndex_length _
    _ ≤ _ := precision_length _
    _ ≤ _ := width_length _
    _ ≤ _ := argNumber_length _
    _ ≤ cs.length := skipFlags_length cs

theorem doPrintf_fuel (n : Nat) : ∀ (s : List Char) (fuel more : Nat),
    s.length ≤ n → s.length ≤ fuel → s.length ≤ more →
    doPrintf fuel s = doPrintf more s := by
  induction n with
  | zero =>
    intro s fuel more hn _ _
    have : s = [] := List.length_eq_zero.mp (Nat.le_zero.mp hn)
    subst this
    cases fuel <;> cases more <;> simp [doPrintf]
  | succ n ih =>
    intro s fuel more hn hf hm
    cases s with
    | nil => cases fuel <;> cases more <;> simp [doPrintf]
    | cons c cs =>
      cases fuel with
      | zero => simp at hf
      | succ fuel =>
        cases more with
        | zero => simp at hm
        | succ more =>
          simp only [List.length_cons, Nat.add_le_add_iff_right] at hn hf hm
          unfold doPrintf
          split_ifs
          · have hlen := scan_length cs
            simp only
            split
            · rfl
            · next v t ht =>
              rw [ht] at hlen
              simp only [List.length_cons] at hlen
              rw [ih t fuel more (by omega) (by omega) (by omega)]
          · rw [ih cs fuel more hn hf hm]

end fmt

theorem fmt.Sprintf_braces : fmt.Sprintf "{}" = "{}" := by decide

/-! ## Lemmas on the handlers -/

theorem GetServiceInstance_of_success (awsClient : Client) (c : Controller)
    (instanceGuid : String) (inst : ServiceInstance) (stored : LastOperation)
    (state : String)
    (hpresent : c.InstanceMap.index instanceGuid = some inst)
    (hstored : inst.LastOperation = some stored)
    (hcloud : awsClient.GetInstanceState inst.InternalId = .ok state) :
    GetServiceInstance awsClient c instanceGuid =
      .ok
        { controller :=
            { c with
              InstanceMap := c.InstanceMap.store instanceGuid
                (some { inst with
                  LastOperation := some
                    (if state = "pending" then
                      { stored with
                        State := "in progress"
                        Description := "creating service instance..." }
                    else if state = "running" then
                      { stored with
                        State := "succeeded"
                        Description := "successfully created service instance" }
                    else
                      { stored with
                        State := "failed"
                        Description := "failed to create service instance" }) }) }
          w :=
            { status := some 200
              body :=
                [.instanceResponse
                  { DashboardUrl := "http://dashbaord_url"
                    LastOperation := some
                      (if state = "pending" then
                        { stored with
                          State := "in progress"
                          Description := "creating service instance..." }
                      else if state = "running" then
                        { stored with
                          State := "succeeded"
                          Description := "successfully created service instance" }
                      else
                        { stored with
                          State := "failed"
                          Description := "failed to create service instance" }) }] }
          calls := [.GetInstanceState inst.InternalId] } := by
  simp only [GetServiceInstance, hpresent, hcloud, hstored]
  rfl

theorem WellFormed.empty : WellFormed Controller.empty := by
  constructor
  · intro g p h
    simp [Controller.empty, GoMap.empty] at h
  · intro b p h
    simp [Controller.empty, GoMap.empty] at h

theorem WellFormed.storeInstance {c : Controller} (hwf : WellFormed c) (g : String)
    (inst : ServiceInstance) (hid : inst.Id = g) (hlo : inst.LastOperation ≠ none) :
    WellFormed { c with InstanceMap := c.InstanceMap.store g (some inst) } := by
  refine ⟨?_, hwf.2⟩
  intro j p h
  by_cases hj : j = g
  · subst hj
    simp [GoMap.store] at h
    exact ⟨inst, h.symm, hid, hlo⟩
  · simp [GoMap.store, hj] at h
    exact hwf.1 j p h

theorem WellFormed.deleteInstance {c : Controller} (hwf : WellFormed c) (g : String) :
    WellFormed { c with InstanceMap := c.InstanceMap.delete g } := by
  refine ⟨?_, hwf.2⟩
  intro j p h
  by_cases hj : j = g
  · simp [GoMap.delete, hj] at h
  · simp [GoMap.delete, hj] at h
    exact hwf.1 j p h

theorem WellFormed.storeKey {c : Controller} (hwf : WellFormed c) (b : String)
    (key : ServiceKey) (hid : key.Id = b) :
    WellFormed { c with KeyMap := c.KeyMap.store b (some key) } := by
  refine ⟨hwf.1, ?_⟩
  intro j p h
  by_cases hj : j = b
  · subst hj
    simp [GoMap.store] at h
    exact ⟨key, h.symm, hid⟩
  · simp [GoMap.store, hj] at h
    exact hwf.2 j p h

theorem WellFormed.deleteKey {c : Controller} (hwf : WellFormed c) (b : String) :
    WellFormed { c with KeyMap := c.KeyMap.delete b } := by
  refine ⟨hwf.1, ?_⟩
  intro j p h
  by_cases hj : j = b
  · simp [GoMap.delete, hj] at h
  · simp [GoMap.delete, hj] at h
    exact hwf.2 j p h

theorem WellFormed.of_index {c : Controller} (hwf : WellFormed c) {g : String}
    {inst : ServiceInstance} (h : c.InstanceMap.index g = some inst) :
    inst.Id = g ∧ inst.LastOperation ≠ none := by
  obtain ⟨r, hr, hid, hlo⟩ := hwf.1 g (some inst) (GoMap.eq_some_some_of_index h)
  cases hr
  exact ⟨hid, hlo⟩

theorem WellFormed.create {c : Controller} (hwf : WellFormed c) (awsClient : Client)
    (guid : String) (unmarshal : Except String ServiceInstance) :
    WellFormed (CreateServiceInstance awsClient c guid unmarshal).controller := by
  unfold CreateServiceInstance
  cases unmarshal with
  | error e => exact hwf
  | ok spec =>
    cases hcloud : awsClient.CreateInstance with
    | error e => simpa [hcloud] using hwf
    | ok vmId =>
      simp only [hcloud]
      exact hwf.storeInstance guid _ rfl (by simp)

theorem WellFormed.get {c : Controller} (hwf : WellFormed c) (awsClient : Client)
    (guid : String) (o : Outcome) (h : GetServiceInstance awsClient c guid = .ok o) :
    WellFormed o.controller := by
  unfold GetServiceInstance at h
  cases hidx : c.InstanceMap.index guid with
  | none =>
    simp only [hidx] at h
    cases h
    exact hwf
  | some inst =>
    simp only [hidx] at h
    cases hcloud : awsClient.GetInstanceState inst.InternalId with
    | error e =>
      simp only [hcloud] at h
      cases h
      exact hwf
    | ok state =>
      simp only [hcloud] at h
      cases hlo : inst.LastOperation with
      | none => simp [hlo] at h
      | some stored =>
        simp only [hlo] at h
        cases h
        exact hwf.storeInstance guid _ (hwf.of_index hidx).1 (by simp)

theorem WellFormed.remove {c : Controller} (hwf : WellFormed c) (awsClient : Client)
    (guid : String) : WellFormed (RemoveServiceInstance awsClient c guid).controller := by
  unfold RemoveServiceInstance
  cases hidx : c.InstanceMap.index guid with
  | none => exact hwf
  | some inst => exact hwf.deleteInstance guid

theorem WellFormed.bind {c : Controller} (hwf : WellFormed c)
    (marshal : CreateServiceBindingResponse → String) (awsClient : Client)
    (guid keyId : String) : WellFormed (Bind marshal awsClient c guid keyId).controller := by
  unfold Bind
  cases hidx : c.InstanceMap.index guid with
  | none => exact hwf
  | some inst =>
    cases hcloud : awsClient.InjectKeyPair inst.InternalId with
    | error e => simpa [hcloud] using hwf
    | ok privateKey =>
      simp only [hcloud]
      exact hwf.storeKey keyId _ rfl

theorem WellFormed.unbind {c : Controller} (hwf : WellFormed c) (awsClient : Client)
    (guid keyId : String) (o : Outcome) (h : UnBind awsClient c guid keyId = .ok o) :
    WellFormed o.controller := by
  unfold UnBind at h
  cases hidx : c.InstanceMap.index guid with
  | none =>
    simp only [hidx] at h
    cases h
    exact hwf
  | some inst =>
    simp only [hidx] at h
    cases hkey : c.KeyMap.index keyId with
    | none => simp [hkey] at h
    | some key =>
      simp only [hkey] at h
      cases hcloud : awsClient.RevokeKeyPair inst.InternalId key.PrivateKey with
      | some e =>
        simp only [hcloud] at h
        cases h
        exact hwf
      | none =>
        simp only [hcloud] at h
        cases h
        exact hwf.deleteKey keyId

theorem Reachable.wellFormed {c : Controller} (h : Reachable c) : WellFormed c := by
  induction h with
  | start => exact WellFormed.empty
  | create awsClient c guid unmarshal _ ih => exact ih.create awsClient guid unmarshal
  | get awsClient c guid o _ hget ih => exact ih.get awsClient guid o hget
  | remove awsClient c guid _ ih => exact ih.remove awsClient guid
  | bind marshal awsClient c guid keyId _ ih => exact ih.bind marshal awsClient guid keyId
  | unbind awsClient c guid keyId o _ hunbind ih => exact ih.unbind awsClient guid keyId o hunbind

theorem GetServiceInstance_returns (awsClient : Client) (c : Controller) (guid : String)
    (inst : ServiceInstance) (hpresent : c.InstanceMap.index guid = some inst)
    (hlo : inst.LastOperation ≠ none) :
    ∃ o, GetServiceInstance awsClient c guid = .ok o := by
  cases hcloud : awsClient.GetInstanceState inst.InternalId with
  | error e =>
    exact ⟨⟨c, ResponseWriter.fresh.WriteHeader StatusInternalServerError,
      [.GetInstanceState inst.InternalId]⟩,
      by simp only [GetServiceInstance, hpresent, hcloud]⟩
  | ok state =>
    cases hstored : inst.LastOperation with
    | none => exact absurd hstored hlo
    | some stored =>
      exact ⟨_, GetServiceInstance_of_success awsClient c guid inst stored state
        hpresent hstored hcloud⟩

theorem Bind_of_success (marshal : CreateServiceBindingResponse → String)
    (awsClient : Client) (c : Controller) (instanceGuid bindingGuid : String)
    (inst : ServiceInstance) (privateKey : String)
    (hpresent : c.InstanceMap.index instanceGuid = some inst)
    (hcloud : awsClient.InjectKeyPair inst.InternalId = .ok privateKey) :
    (Bind marshal awsClient c instanceGuid bindingGuid).w
      = ⟨some 201, [.text (fmt.Sprintf (marshal ⟨⟨privateKey⟩⟩))]⟩ ∧
    (Bind marshal awsClient c instanceGuid bindingGuid).controller.KeyMap bindingGuid
      = some (some ⟨bindingGuid, inst.ServiceId, inst.PlanId, privateKey, inst.Id⟩) ∧
    (Bind marshal awsClient c instanceGuid bindingGuid).controller.InstanceMap
      = c.InstanceMap := by
  simp [Bind, hpresent, hcloud, ResponseWriter.fresh, ResponseWriter.WriteHeader,
    ResponseWriter.Fprintf, StatusCreated, GoMap.store]

theorem Bind_of_absent (marshal : CreateServiceBindingResponse → String)
    (awsClient : Client) (c : Controller) (instanceGuid bindingGuid : String)
    (habsent : c.InstanceMap.index instanceGuid = none) :
    (Bind marshal awsClient c instanceGuid bindingGuid).w = ⟨some 404, []⟩ ∧
    (Bind marshal awsClient c instanceGuid bindingGuid).controller = c := by
  simp [Bind, habsent, ResponseWriter.fresh, ResponseWriter.WriteHeader, StatusNotFound]

theorem created_reachable :
    Reachable (CreateServiceInstance workingClient Controller.empty "g"
      (.ok sampleSpec)).controller :=
  Reachable.create workingClient Controller.empty "g" (.ok sampleSpec) Reachable.start

theorem created_instance :
    (CreateServiceInstance workingClient Controller.empty "g"
      (.ok sampleSpec)).controller.InstanceMap.index "g" = some sampleInstance := by
  simp [CreateServiceInstance, workingClient, GoMap.index_store_self, sampleSpec,
    sampleInstance, DEFAULT_POLLING_INTERVAL_SECONDS]

/-! ## Deleting and unbinding on an absent instance -/

/-- C5: when `c.InstanceMap[instanceGuid]` is nil, `RemoveServiceInstance` and
`UnBind` (for every binding guid) answer 410 with the body `{}`, make no cloud
call and return the controller as it was. -/
theorem gone_when_instance_absent (awsClient : Client) (c : Controller)
    (instanceGuid bindingGuid : String)
    (habsent : c.InstanceMap.index instanceGuid = none) :
    (RemoveServiceInstance awsClient c instanceGuid).w = ⟨some 410, [.text "{}"]⟩ ∧
    (RemoveServiceInstance awsClient c instanceGuid).calls = [] ∧
    (RemoveServiceInstance awsClient c instanceGuid).controller = c ∧
    ∃ u, UnBind awsClient c instanceGuid bindingGuid = .ok u ∧
      u.w = ⟨some 410, [.text "{}"]⟩ ∧ u.calls = [] ∧ u.controller = c := by
  refine ⟨?_, ?_, ?_, ?_⟩
  · simp [RemoveServiceInstance, habsent, ResponseWriter.fresh, ResponseWriter.WriteHeader,
      ResponseWriter.Fprintf, StatusGone]
  · simp [RemoveServiceInstance, habsent]
  · simp [RemoveServiceInstance, habsent]
  · refine ⟨⟨c, ⟨some 410, [.text "{}"]⟩, []⟩, ?_, rfl, rfl, rfl⟩
    simp [UnBind, habsent, ResponseWriter.fresh, ResponseWriter.WriteHeader,
      ResponseWriter.Fprintf, StatusGone]

/-- Witness of C5 on the empty controller, with a binding guid that is not in
the key map and a cloud client that would fail if it were called. -/
theorem gone_when_instance_absent_witness :
    Controller.empty.InstanceMap.index "g" = none ∧
    (RemoveServiceInstance failingClient Controller.empty "g").w = ⟨some 410, [.text "{}"]⟩ ∧
    (RemoveServiceInstance failingClient Controller.empty "g").calls = [] ∧
    ∃ u, UnBind failingClient Controller.empty "g" "b" = .ok u ∧
      u.w = ⟨some 410, [.text "{}"]⟩ ∧ u.calls = [] ∧ u.controller = Controller.empty :=
  have h := gone_when_instance_absent failingClient Controller.empty "g" "b" rfl
  ⟨rfl, h.1, h.2.1, h.2.2.2⟩

/-! ## Deleting an instance -/

/-- C4: when the instance is recorded and the cloud deletion succeeds,
`RemoveServiceInstance` answers 200 with the body `{}`, the key
`instanceGuid` is gone from the instance map, every other key of the
instance map holds what it held, and a following `GetServiceInstance` on the
same guid, whatever the cloud client, answers 404 without a cloud call. -/
theorem delete_success_then_get_not_found (awsClient : Client) (c : Controller)
    (instanceGuid : String) (inst : ServiceInstance)
    (hpresent : c.InstanceMap.index instanceGuid = some inst)
    (hcloud : awsClient.DeleteInstance inst.InternalId = none) :
    (RemoveServiceInstance awsClient c instanceGuid).w = ⟨some 200, [.text "{}"]⟩ ∧
    (RemoveServiceInstance awsClient c instanceGuid).controller.InstanceMap instanceGuid = none ∧
    (∀ g, g ≠ instanceGuid →
      (RemoveServiceInstance awsClient c instanceGuid).controller.InstanceMap g
        = c.InstanceMap g) ∧
    ∀ later : Client, ∃ o,
      GetServiceInstance later (RemoveServiceInstance awsClient c instanceGuid).controller
        instanceGuid = .ok o ∧
      o.w = ⟨some 404, []⟩ ∧ o.calls = [] := by
  have hctl : (RemoveServiceInstance awsClient c instanceGuid).controller
      = { c with InstanceMap := c.InstanceMap.delete instanceGuid } := by
    simp [RemoveServiceInstance, hpresent]
  refine ⟨?_, ?_, ?_, ?_⟩
  · simp [RemoveServiceInstance, hpresent, hcloud, ResponseWriter.fresh,
      ResponseWriter.WriteHeader, ResponseWriter.Fprintf, StatusOK]
  · rw [hctl]
    simp [GoMap.delete]
  · intro g hg
    rw [hctl]
    simp [GoMap.delete, hg]
  · intro later
    rw [hctl]
    refine ⟨⟨{ c with InstanceMap := c.InstanceMap.delete instanceGuid }, ⟨some 404, []⟩, []⟩,
      ?_, rfl, rfl⟩
    simp [GetServiceInstance, GoMap.index_delete_self, ResponseWriter.fresh,
      ResponseWriter.WriteHeader, StatusNotFound]

/-- Witness of C4 on the sample controller and the working cloud client. -/
theorem delete_success_then_get_not_found_witness :
    sampleController.InstanceMap.index "g" = some sampleInstance ∧
    workingClient.DeleteInstance sampleInstance.InternalId = none ∧
    (RemoveServiceInstance workingClient sampleController "g").w
      = ⟨some 200, [.text "{}"]⟩ ∧
    (RemoveServiceInstance workingClient sampleController "g").controller.InstanceMap "g"
      = none ∧
    ∀ later : Client, ∃ o,
      GetServiceInstance later (RemoveServiceInstance workingClient sampleController "g").controller
        "g" = .ok o ∧
      o.w = ⟨some 404, []⟩ ∧ o.calls = [] :=
  have h := delete_success_then_get_not_found workingClient sampleController "g"
    sampleInstance sampleController_instance rfl
  ⟨sampleController_instance, rfl, h.1, h.2.1, h.2.2.2⟩

/-- C9: `RemoveServiceInstance` returns the key map it was given, whatever the
cloud client answers and whether or not the instance is recorded; so a key
record that names the instance is still found under its binding guid after
the instance was removed. -/
theorem delete_keeps_key_map (awsClient : Client) (c : Controller) (instanceGuid : String) :
    (RemoveServiceInstance awsClient c instanceGuid).controller.KeyMap = c.KeyMap ∧
    ∀ bindingGuid key, c.KeyMap.index bindingGuid = some key →
      key.ServiceInstanceId = instanceGuid →
      (RemoveServiceInstance awsClient c instanceGuid).controller.KeyMap.index bindingGuid
        = some key := by
  have hkeys : (RemoveServiceInstance awsClient c instanceGuid).controller.KeyMap = c.KeyMap := by
    unfold RemoveServiceInstance
    cases c.InstanceMap.index instanceGuid <;> rfl
  refine ⟨hkeys, ?_⟩
  intro bindingGuid key hkey _
  rw [hkeys]
  exact hkey

/-- Instance of C9 on the sample controller: after the instance `"g"` is
removed, the key `"b"` that names it is still in the key map. -/
theorem delete_keeps_key_map_witness :
    (RemoveServiceInstance workingClient sampleController "g").controller.InstanceMap "g"
      = none ∧
    sampleKey.ServiceInstanceId = "g" ∧
    (RemoveServiceInstance workingClient sampleController "g").controller.KeyMap.index "b"
      = some sampleKey :=
  ⟨by simp [RemoveServiceInstance, sampleController_instance, GoMap.delete], rfl,
    (delete_keeps_key_map workingClient sampleController "g").2 "b" sampleKey
      sampleController_key rfl⟩

/-! ## Creating an instance -/

/-- C6: when the request body unmarshals to `spec` and the cloud creation
succeeds with id `vmId`, `CreateServiceInstance` answers 200 with the
dashboard URL placeholder and a last operation of state `in progress` and
poll interval 10; the instance map holds under `instanceGuid` a record with
identifier `instanceGuid`, internal identifier `vmId`, the service id and
plan id of `spec` and that same last operation; every other key of the
instance map holds what it held. -/
theorem create_success (awsClient : Client) (c : Controller) (instanceGuid : String)
    (spec : ServiceInstance) (vmId : String)
    (hcloud : awsClient.CreateInstance = .ok vmId) :
    ∃ lastOperation : LastOperation,
      lastOperation.State = "in progress" ∧
      lastOperation.AsyncPollIntervalSeconds = 10 ∧
      (CreateServiceInstance awsClient c instanceGuid (.ok spec)).w
        = ⟨some 200, [.instanceResponse ⟨"http://dashbaord_url", some lastOperation⟩]⟩ ∧
      (CreateServiceInstance awsClient c instanceGuid (.ok spec)).controller.InstanceMap
          instanceGuid
        = some (some ⟨instanceGuid, vmId, spec.ServiceId, spec.PlanId, some lastOperation⟩) ∧
      ∀ g, g ≠ instanceGuid →
        (CreateServiceInstance awsClient c instanceGuid (.ok spec)).controller.InstanceMap g
          = c.InstanceMap g := by
  refine ⟨⟨"in progress", "creating service instance...", 10⟩, rfl, rfl, ?_, ?_, ?_⟩
  · simp [CreateServiceInstance, hcloud, ResponseWriter.fresh, ResponseWriter.WriteHeader,
      ResponseWriter.Fprintf, StatusOK, DEFAULT_POLLING_INTERVAL_SECONDS]
  · simp [CreateServiceInstance, hcloud, GoMap.store, DEFAULT_POLLING_INTERVAL_SECONDS]
  · intro g hg
    simp [CreateServiceInstance, hcloud, GoMap.store, hg]

/-- Witness of C6: creating `"h"` next to the recorded instance `"g"`. -/
theorem create_success_witness :
    workingClient.CreateInstance = .ok "i-1" ∧
    ∃ lastOperation : LastOperation,
      lastOperation.State = "in progress" ∧
      lastOperation.AsyncPollIntervalSeconds = 10 ∧
      (CreateServiceInstance workingClient sampleController "h" (.ok sampleSpec)).w
        = ⟨some 200, [.instanceResponse ⟨"http://dashbaord_url", some lastOperation⟩]⟩ ∧
      (CreateServiceInstance workingClient sampleController "h"
          (.ok sampleSpec)).controller.InstanceMap "h"
        = some (some ⟨"h", "i-1", "svc", "plan", some lastOperation⟩) ∧
      ∀ g, g ≠ "h" →
        (CreateServiceInstance workingClient sampleController "h"
            (.ok sampleSpec)).controller.InstanceMap g
          = sampleController.InstanceMap g :=
  ⟨rfl, create_success workingClient sampleController "h" sampleSpec "i-1" rfl⟩

/-! ## Cloud failures -/

/-- C7: a failing cloud call leaves the controller as it was.  When the cloud
creation fails, `CreateServiceInstance` answers 500; when the instance is
recorded and the state query fails, `GetServiceInstance` returns and answers
500; when the instance is recorded and the key injection fails, `Bind`
answers 500.  Each of them returns the very controller it was given, so
neither map has changed. -/
theorem cloud_failure_keeps_state :
    (∀ (awsClient : Client) (c : Controller) (instanceGuid : String)
        (spec : ServiceInstance) (err : String),
      awsClient.CreateInstance = .error err →
      (CreateServiceInstance awsClient c instanceGuid (.ok spec)).w = ⟨some 500, []⟩ ∧
      (CreateServiceInstance awsClient c instanceGuid (.ok spec)).controller = c) ∧
    (∀ (awsClient : Client) (c : Controller) (instanceGuid : String)
        (inst : ServiceInstance) (err : String),
      c.InstanceMap.index instanceGuid = some inst →
      awsClient.GetInstanceState inst.InternalId = .error err →
      ∃ o, GetServiceInstance awsClient c instanceGuid = .ok o ∧
        o.w = ⟨some 500, []⟩ ∧ o.controller = c) ∧
    (∀ (marshal : CreateServiceBindingResponse → String) (awsClient : Client)
        (c : Controller) (instanceGuid bindingGuid : String)
        (inst : ServiceInstance) (err : String),
      c.InstanceMap.index instanceGuid = some inst →
      awsClient.InjectKeyPair inst.InternalId = .error err →
      (Bind marshal awsClient c instanceGuid bindingGuid).w = ⟨some 500, []⟩ ∧
      (Bind marshal awsClient c instanceGuid bindingGuid).controller = c) := by
  refine ⟨?_, ?_, ?_⟩
  · intro awsClient c instanceGuid spec err hcloud
    simp [CreateServiceInstance, hcloud, ResponseWriter.fresh, ResponseWriter.WriteHeader,
      StatusInternalServerError]
  · intro awsClient c instanceGuid inst err hpresent hcloud
    refine ⟨⟨c, ⟨some 500, []⟩, [.GetInstanceState inst.InternalId]⟩, ?_, rfl, rfl⟩
    simp [GetServiceInstance, hpresent, hcloud, ResponseWriter.fresh,
      ResponseWriter.WriteHeader, StatusInternalServerError]
  · intro marshal awsClient c instanceGuid bindingGuid inst err hpresent hcloud
    simp [Bind, hpresent, hcloud, ResponseWriter.fresh, ResponseWriter.WriteHeader,
      StatusInternalServerError]

/-- Witness of C7 on the sample controller with the failing cloud client: the
three handlers answer 500 and the instance `"g"` and the key `"b"` are the
only records afterwards, as before. -/
theorem cloud_failure_keeps_state_witness :
    failingClient.CreateInstance = .error "down" ∧
    sampleController.InstanceMap.index "g" = some sampleInstance ∧
    failingClient.GetInstanceState sampleInstance.InternalId = .error "down" ∧
    failingClient.InjectKeyPair sampleInstance.InternalId = .error "down" ∧
    ((CreateServiceInstance failingClient sampleController "h" (.ok sampleSpec)).w
        = ⟨some 500, []⟩ ∧
      (CreateServiceInstance failingClient sampleController "h" (.ok sampleSpec)).controller
        = sampleController) ∧
    (∃ o, GetServiceInstance failingClient sampleController "g" = .ok o ∧
      o.w = ⟨some 500, []⟩ ∧ o.controller = sampleController) ∧
    ((Bind sampleMarshal failingClient sampleController "g" "k").w = ⟨some 500, []⟩ ∧
      (Bind sampleMarshal failingClient sampleController "g" "k").controller
        = sampleController) :=
  ⟨rfl, sampleController_instance, rfl, rfl,
    cloud_failure_keeps_state.1 failingClient sampleController "h" sampleSpec "down" rfl,
    cloud_failure_keeps_state.2.1 failingClient sampleController "g" sampleInstance "down"
      sampleController_instance rfl,
    cloud_failure_keeps_state.2.2 sampleMarshal failingClient sampleController "g" "k"
      sampleInstance "down"
      sampleController_instance rfl⟩

/-! ## Binding -/

/-- C8, the code at the failing input: the instance `"g"` is recorded and the
key injection succeeds with the private key `100%d`.  `Bind` answers 201
and stores under `"k"` the key record with that private key, but the JSON
text of the response is the format of `fmt.Fprintf`, which reads `%d` as a
verb with no operand: whatever the encoder, the body is the formatted text,
and with the sample encoder it carries `100%!d(MISSING)`, not the
credentials `100%d`. -/
theorem bind_rewrites_percent_in_key :
    sampleController.InstanceMap.index "g" = some sampleInstance ∧
    percentClient.InjectKeyPair sampleInstance.InternalId = .ok "100%d" ∧
    (∀ marshal : CreateServiceBindingResponse → String,
      (Bind marshal percentClient sampleController "g" "k").w
        = ⟨some 201, [.text (fmt.Sprintf (marshal ⟨⟨"100%d"⟩⟩))]⟩ ∧
      (Bind marshal percentClient sampleController "g" "k").controller.KeyMap "k"
        = some (some ⟨"k", "svc", "plan", "100%d", "g"⟩)) ∧
    sampleMarshal ⟨⟨"100%d"⟩⟩
      = "\x7b\"credentials\":\x7b\"private_key\":\"100%d\"\x7d\x7d" ∧
    (Bind sampleMarshal percentClient sampleController "g" "k").w.body
      = [.text "\x7b\"credentials\":\x7b\"private_key\":\"100%!d(MISSING)\"\x7d\x7d"] ∧
    (Bind sampleMarshal percentClient sampleController "g" "k").w.body
      ≠ [.text (sampleMarshal ⟨⟨"100%d"⟩⟩)] := by
  have hbind : ∀ marshal : CreateServiceBindingResponse → String,
      (Bind marshal percentClient sampleController "g" "k").w
        = ⟨some 201, [.text (fmt.Sprintf (marshal ⟨⟨"100%d"⟩⟩))]⟩ ∧
      (Bind marshal percentClient sampleController "g" "k").controller.KeyMap "k"
        = some (some ⟨"k", "svc", "plan", "100%d", "g"⟩) := by
    intro marshal
    simp [Bind, sampleController_instance, percentClient, workingClient, sampleInstance,
      ResponseWriter.fresh, ResponseWriter.WriteHeader, ResponseWriter.Fprintf,
      StatusCreated, GoMap.store]
  have hfmt : fmt.Sprintf (sampleMarshal ⟨⟨"100%d"⟩⟩)
      = "\x7b\"credentials\":\x7b\"private_key\":\"100%!d(MISSING)\"\x7d\x7d" := by
    decide
  have hbody : (Bind sampleMarshal percentClient sampleController "g" "k").w.body
      = [.text "\x7b\"credentials\":\x7b\"private_key\":\"100%!d(MISSING)\"\x7d\x7d"] := by
    rw [(hbind sampleMarshal).1, hfmt]
  refine ⟨sampleController_instance, rfl, hbind, by decide, hbody, ?_⟩
  rw [hbody]
  decide

/-! ## Polling an instance -/

/-- C3: in every controller the broker reaches from empty maps, when the
instance is recorded and the state query succeeds with `state`,
`GetServiceInstance` returns, answers 200 with a last operation that is also
the one stored in the instance record afterwards, and whose state is
`in progress` for `pending`, `succeeded` for `running` and `failed` for any
other `state`, whatever the state stored before. -/
theorem get_maps_provider_state (awsClient : Client) (c : Controller)
    (instanceGuid : String) (inst : ServiceInstance) (state : String)
    (hreach : Reachable c)
    (hpresent : c.InstanceMap.index instanceGuid = some inst)
    (hcloud : awsClient.GetInstanceState inst.InternalId = .ok state) :
    ∃ (o : Outcome) (returned : LastOperation) (after : ServiceInstance),
      GetServiceInstance awsClient c instanceGuid = .ok o ∧
      o.w = ⟨some 200, [.instanceResponse ⟨"http://dashbaord_url", some returned⟩]⟩ ∧
      o.controller.InstanceMap.index instanceGuid = some after ∧
      after.LastOperation = some returned ∧
      returned.State =
        (if state = "pending" then "in progress"
         else if state = "running" then "succeeded" else "failed") := by
  have hlo := (hreach.wellFormed.of_index hpresent).2
  cases hstored : inst.LastOperation with
  | none => exact absurd hstored hlo
  | some stored =>
    have hget := GetServiceInstance_of_success awsClient c instanceGuid inst stored state
      hpresent hstored hcloud
    refine ⟨_, _, _, hget, rfl, GoMap.index_store_self _ _ _, rfl, ?_⟩
    by_cases hp : state = "pending"
    · simp [hp]
    · by_cases hr : state = "running"
      · simp [hr]
      · simp [hp, hr]

/-- Witness of C3: the controller reached by creating `"g"` stores
`in progress`, the provider reports `running`, and the poll returns and
stores `succeeded`. -/
theorem get_maps_provider_state_witness :
    Reachable (CreateServiceInstance workingClient Controller.empty "g"
      (.ok sampleSpec)).controller ∧
    (CreateServiceInstance workingClient Controller.empty "g"
      (.ok sampleSpec)).controller.InstanceMap.index "g" = some sampleInstance ∧
    sampleInstance.LastOperation
      = some ⟨"in progress", "creating service instance...", 10⟩ ∧
    workingClient.GetInstanceState sampleInstance.InternalId = .ok "running" ∧
    ∃ (o : Outcome) (returned : LastOperation) (after : ServiceInstance),
      GetServiceInstance workingClient
        (CreateServiceInstance workingClient Controller.empty "g"
          (.ok sampleSpec)).controller "g" = .ok o ∧
      o.w = ⟨some 200, [.instanceResponse ⟨"http://dashbaord_url", some returned⟩]⟩ ∧
      o.controller.InstanceMap.index "g" = some after ∧
      after.LastOperation = some returned ∧
      returned.State = "succeeded" :=
  ⟨created_reachable, created_instance, rfl, rfl,
    get_maps_provider_state workingClient _ "g" sampleInstance "running"
      created_reachable created_instance rfl⟩

/-! ## The missing `return` of `RemoveServiceInstance` -/

/-- C1, the code at the failing input: the instance `"g"` is recorded and the
cloud deletion fails; `RemoveServiceInstance` answers 500 with the error
body followed by `{}`, and the key `"g"` is gone from the instance map. -/
theorem delete_failure_still_removes :
    sampleController.InstanceMap.index "g" = some sampleInstance ∧
    failingClient.DeleteInstance sampleInstance.InternalId = some "down" ∧
    (RemoveServiceInstance failingClient sampleController "g").w
      = ⟨some 500, [.brokerError "down", .text "{}"]⟩ ∧
    (RemoveServiceInstance failingClient sampleController "g").controller.InstanceMap "g"
      = none ∧
    (RemoveServiceInstance failingClient sampleController "g").controller.InstanceMap.index "g"
      ≠ sampleController.InstanceMap.index "g" := by
  have hw : (RemoveServiceInstance failingClient sampleController "g").w
      = ⟨some 500, [.brokerError "down", .text "{}"]⟩ := by
    simp [RemoveServiceInstance, sampleController_instance, failingClient,
      ResponseWriter.fresh, ResponseWriter.WriteHeader, ResponseWriter.Fprintf,
      StatusInternalServerError, StatusOK]
  have hgone : (RemoveServiceInstance failingClient sampleController "g").controller.InstanceMap
      "g" = none := by
    simp [RemoveServiceInstance, sampleController_instance, GoMap.delete]
  refine ⟨sampleController_instance, rfl, hw, hgone, ?_⟩
  rw [sampleController_instance]
  simp [GoMap.index, hgone]

/-! ## Unbinding twice -/

/-- C2, the code at the failing input: the instance `"g"` and the key `"b"`
are recorded and the revocation succeeds; the first `UnBind` answers 200
with `{}` and removes `"b"` from the key map, and the second `UnBind` with
the same guids faults on the nil key record instead of answering 410. -/
theorem unbind_twice_faults :
    sampleController.InstanceMap.index "g" = some sampleInstance ∧
    sampleController.KeyMap.index "b" = some sampleKey ∧
    workingClient.RevokeKeyPair sampleInstance.InternalId sampleKey.PrivateKey = none ∧
    ∃ u, UnBind workingClient sampleController "g" "b" = .ok u ∧
      u.w = ⟨some 200, [.text "{}"]⟩ ∧
      u.controller.KeyMap "b" = none ∧
      UnBind workingClient u.controller "g" "b" = .error .nilDereference := by
  refine ⟨sampleController_instance, sampleController_key, rfl,
    ⟨{ sampleController with KeyMap := sampleController.KeyMap.delete "b" },
      ⟨some 200, [.text "{}"]⟩,
      [.RevokeKeyPair sampleInstance.InternalId sampleKey.PrivateKey]⟩, ?_, rfl, ?_, ?_⟩
  · simp [UnBind, sampleController_instance, sampleController_key, workingClient,
      ResponseWriter.fresh, ResponseWriter.WriteHeader, ResponseWriter.Fprintf, StatusOK]
  · simp [GoMap.delete]
  · simp [UnBind, sampleController_instance, GoMap.index_delete_self]

/-! ## Well-formedness is preserved -/

/-- C10: well-formedness of the two maps is kept by every handler call that
returns, whatever the cloud client answers; and in every controller reached
from empty maps, a recorded instance has a non-nil `LastOperation` and
`GetServiceInstance` on it returns without a fault. -/
theorem wellFormed_invariant :
    (∀ c : Controller, WellFormed c →
      (∀ awsClient guid unmarshal,
        WellFormed (CreateServiceInstance awsClient c guid unmarshal).controller) ∧
      (∀ awsClient guid o,
        GetServiceInstance awsClient c guid = .ok o → WellFormed o.controller) ∧
      (∀ awsClient guid, WellFormed (RemoveServiceInstance awsClient c guid).controller) ∧
      (∀ marshal awsClient guid keyId,
        WellFormed (Bind marshal awsClient c guid keyId).controller) ∧
      (∀ awsClient guid keyId o,
        UnBind awsClient c guid keyId = .ok o → WellFormed o.controller)) ∧
    (∀ c : Controller, Reachable c →
      ∀ guid inst, c.InstanceMap.index guid = some inst →
        inst.LastOperation ≠ none ∧
        ∀ awsClient, ∃ o, GetServiceInstance awsClient c guid = .ok o) := by
  refine ⟨?_, ?_⟩
  · intro c hwf
    exact ⟨fun awsClient guid unmarshal => hwf.create awsClient guid unmarshal,
      fun awsClient guid o h => hwf.get awsClient guid o h,
      fun awsClient guid => hwf.remove awsClient guid,
      fun marshal awsClient guid keyId => hwf.bind marshal awsClient guid keyId,
      fun awsClient guid keyId o h => hwf.unbind awsClient guid keyId o h⟩
  · intro c hreach guid inst hpresent
    have hlo := (hreach.wellFormed.of_index hpresent).2
    exact ⟨hlo, fun awsClient => GetServiceInstance_returns awsClient c guid inst hpresent hlo⟩

/-- Witness of C10: the empty controller is well-formed and stays so after a
creation and a binding; the controller reached by creating `"g"` holds a
record with a non-nil `LastOperation`, and polling it returns. -/
theorem wellFormed_invariant_witness :
    WellFormed Controller.empty ∧
    WellFormed (CreateServiceInstance workingClient Controller.empty "g"
      (.ok sampleSpec)).controller ∧
    WellFormed (Bind sampleMarshal workingClient Controller.empty "g" "b").controller ∧
    Reachable (CreateServiceInstance workingClient Controller.empty "g"
      (.ok sampleSpec)).controller ∧
    (CreateServiceInstance workingClient Controller.empty "g"
      (.ok sampleSpec)).controller.InstanceMap.index "g" = some sampleInstance ∧
    sampleInstance.LastOperation ≠ none ∧
    ∃ o, GetServiceInstance workingClient
      (CreateServiceInstance workingClient Controller.empty "g" (.ok sampleSpec)).controller
      "g" = .ok o :=
  have hreach : Reachable (CreateServiceInstance workingClient Controller.empty "g"
      (.ok sampleSpec)).controller :=
    Reachable.create workingClient Controller.empty "g" (.ok sampleSpec) Reachable.start
  have hidx : (CreateServiceInstance workingClient Controller.empty "g"
      (.ok sampleSpec)).controller.InstanceMap.index "g" = some sampleInstance := by
    simp [CreateServiceInstance, workingClient, GoMap.index_store_self, sampleSpec,
      sampleInstance, DEFAULT_POLLING_INTERVAL_SECONDS]
  have hstep := wellFormed_invariant.1 Controller.empty WellFormed.empty
  have hpoll := wellFormed_invariant.2 _ hreach "g" sampleInstance hidx
  ⟨WellFormed.empty, hstep.1 workingClient "g" (.ok sampleSpec),
    hstep.2.2.2.1 sampleMarshal workingClient "g" "b", hreach, hidx, hpoll.1,
    hpoll.2 workingClient⟩

end web_server
